import Mathlib

/-!
Verification of the value-rendering engine of the spreadsheet-ods document model.

Shallow embedding of:
  - src/attrmap2.rs   (AttrMap2, the generic named-attribute store)
  - src/format.rs     (ValueFormat / FormatPart / FormatPartType and the renderer)
  - src/ds/mod.rs     (Detach / Detached, the ownership-transfer helper)

Rust strings are modelled as Lean String, `HashMap<DefaultAtom, String>` as an
association list with one binding per key (insertion replaces), f64 as an exact
rational (see the comments at the float-rendering helpers), chrono and the time
crate by explicit calendar arithmetic.  Mutable-buffer appends (`buf.push_str`)
are modelled by returning `buf ++ contribution`.
-/

/- ---------------------------------------------------------------- -/
/- Generic string helpers                                            -/
/- ---------------------------------------------------------------- -/

/-- Concatenation of a list of strings, in order. -/
def joinParts : List String → String
  | [] => ""
  | s :: rest => s ++ joinParts rest

/-- Zero-pad a natural number to (at least) two decimal digits. -/
def pad2 (n : Nat) : String :=
  if n < 10 then "0" ++ toString n else toString n

/-- Zero-pad a natural number to (at least) four decimal digits. -/
def pad4 (n : Nat) : String :=
  if n < 10 then "000" ++ toString n
  else if n < 100 then "00" ++ toString n
  else if n < 1000 then "0" ++ toString n
  else toString n

/-- Left-pad a digit string with zeros to the given width. -/
def padZeros (s : String) (width : Nat) : String :=
  String.mk (List.replicate (width - s.length) '0') ++ s

/-- Rust `str::parse::<usize>()` on a 64-bit target: an optional leading plus
sign followed by one or more ASCII digits, rejecting values that do not fit in
64 bits; every other string is a parse error (`None`). -/
def parseUsize (s : String) : Option Nat :=
  let cs := s.toList
  let ds := match cs with
    | '+' :: rest => rest
    | _ => cs
  if ds.isEmpty then none
  else if ds.all (fun c => c.isDigit) then
    let n := ds.foldl (fun acc c => acc * 10 + (c.toNat - 48)) 0
    if n < 18446744073709551616 then some n else none
  else none

/- ---------------------------------------------------------------- -/
/- Attribute association lists (HashMap model)                       -/
/- ---------------------------------------------------------------- -/

/-- Model of `HashMap<DefaultAtom, String>`: an association list with at most
one binding per key; insertion replaces any previous binding. -/
def AttrList : Type := List (String × String)

/-- HashMap::insert - replace any existing binding for the key. -/
def attrInsert (m : AttrList) (k v : String) : AttrList :=
  (List.filter (fun p => p.1 != k) m) ++ [(k, v)]

/-- HashMap::get on an optional map: `None` map behaves as empty. -/
def attrGet (m : Option AttrList) (k : String) : Option String :=
  match m with
  | some l => List.lookup k l
  | none => none

/- ---------------------------------------------------------------- -/
/- AttrMap2 (src/attrmap2.rs)                                        -/
/- ---------------------------------------------------------------- -/

/-- Source: struct AttrMap2, src/attrmap2.rs.  `map: Option<HashMap<..>>` -
`none` is the never-allocated state. -/
structure AttrMap2 where
  map : Option AttrList

/-- Source: AttrMap2::new. -/
def AttrMap2.new : AttrMap2 := ⟨none⟩

/-- Source: AttrMap2::is_empty - "Are there any attributes?"; implemented as
`self.map.is_none()`. -/
def AttrMap2.is_empty (m : AttrMap2) : Bool := m.map.isNone

/-- Source: AttrMap2::add_all - allocates the map if needed and inserts every
pair. -/
def AttrMap2.add_all (m : AttrMap2) (data : List (String × String)) : AttrMap2 :=
  ⟨some (data.foldl (fun acc kv => attrInsert acc kv.1 kv.2) (m.map.getD []))⟩

/-- Source: AttrMap2::set_attr - allocates the map if needed and inserts. -/
def AttrMap2.set_attr (m : AttrMap2) (name value : String) : AttrMap2 :=
  ⟨some (attrInsert (m.map.getD []) name value)⟩

/-- Source: AttrMap2::clear_attr - removes a binding and returns the prior
value; an unallocated map returns `none` unchanged.  Note that removal never
deallocates: the map stays `some`, possibly with no entries. -/
def AttrMap2.clear_attr (m : AttrMap2) (name : String) : Option String × AttrMap2 :=
  match m.map with
  | some attr => (List.lookup name attr, ⟨some (List.filter (fun p => p.1 != name) attr)⟩)
  | none => (none, m)

/-- Source: AttrMap2::attr - lookup; unallocated map behaves as empty. -/
def AttrMap2.attr (m : AttrMap2) (name : String) : Option String :=
  match m.map with
  | some prp => List.lookup name prp
  | none => none

/-- Source: AttrMap2::attr_def - lookup with a default. -/
def AttrMap2.attr_def (m : AttrMap2) (name default : String) : String :=
  match m.attr name with
  | some v => v
  | none => default

/-- Source: AttrMap2::iter - the sequence of entries (empty for an unallocated
map). -/
def AttrMap2.iter (m : AttrMap2) : List (String × String) := m.map.getD []

/- ---------------------------------------------------------------- -/
/- Format model (src/format.rs)                                      -/
/- ---------------------------------------------------------------- -/

/-- Source: enum ValueFormatError, src/format.rs. -/
inductive ValueFormatError where
  | Format (s : String)
  | NaN
deriving DecidableEq

/-- Source: enum FormatPartType, src/format.rs - the closed set of part
kinds. -/
inductive FormatPartType where
  | Boolean
  | Number
  | Fraction
  | Scientific
  | CurrencySymbol
  | Day
  | Month
  | Year
  | Era
  | DayOfWeek
  | WeekOfYear
  | Quarter
  | Hours
  | Minutes
  | Seconds
  | AmPm
  | EmbeddedText
  | Text
  | TextContent
deriving DecidableEq, BEq

/-- Source: struct FormatPart, src/format.rs: a kind, optional attributes and
optional literal content. -/
structure FormatPart where
  part_type : FormatPartType
  attr : Option AttrList
  content : Option String

/-- Modelled from the spec: the AttrMap trait (crate::attrmap, whose source
file is not under src/) provides `attr(name)` over the optional attribute map;
per the attribute-store contract, `get` returns the live value or absence and
an absent store behaves exactly like an empty one. -/
def FormatPart.getAttr (p : FormatPart) (name : String) : Option String :=
  attrGet p.attr name

/-- Source: FormatPart::attr_def, src/format.rs - a property or a default. -/
def FormatPart.attr_def (p : FormatPart) (name default : String) : String :=
  match p.getAttr name with
  | some v => v
  | none => default

/-- Source: FormatPart::new. -/
def FormatPart.new (ftype : FormatPartType) : FormatPart :=
  ⟨ftype, none, none⟩

/-- Source: FormatPart::new_content. -/
def FormatPart.new_content (ftype : FormatPartType) (content : String) : FormatPart :=
  ⟨ftype, none, some content⟩

/-- Modelled from the spec: the AttrMap trait's add_all (crate::attrmap, not
under src/) - allocate if needed and insert every pair. -/
def FormatPart.add_all (p : FormatPart) (data : List (String × String)) : FormatPart :=
  { p with attr := some (data.foldl (fun acc kv => attrInsert acc kv.1 kv.2) (p.attr.getD [])) }

/-- Source: FormatPart::new_vec - new part with the given properties. -/
def FormatPart.new_vec (ftype : FormatPartType) (prp_vec : List (String × String)) : FormatPart :=
  FormatPart.add_all ⟨ftype, none, none⟩ prp_vec

/-- Source: FormatPart::set_content. -/
def FormatPart.set_content (p : FormatPart) (content : String) : FormatPart :=
  { p with content := some content }

/-- Modelled from the spec / usage in src/format.rs: enum ValueType (its
defining file is not under src/); the value kinds used by the format module. -/
inductive ValueType where
  | Boolean
  | Number
  | Percentage
  | Currency
  | Text
  | DateTime
  | TimeDuration
deriving DecidableEq

/-- Modelled from the spec: style origin metadata (src/style.rs is not under
src/); irrelevant to rendering, passed through unchanged. -/
structure StyleOrigin where
  deriving DecidableEq

/-- Modelled from the spec: style usage metadata (src/style.rs is not under
src/); irrelevant to rendering, passed through unchanged. -/
structure StyleUse where
  deriving DecidableEq

/-- Modelled from the spec: display styling (color etc.), orthogonal to text
production; src/style.rs is not under src/. -/
structure TextAttr where
  deriving DecidableEq

/-- Modelled from the spec: a conditional style redirection (condition string,
target style name, reference cell), evaluated outside this core. -/
structure StyleMap where
  condition : String
  applied_style : String
  base_cell : String
deriving DecidableEq

/-- Source: struct ValueFormat, src/format.rs. -/
structure ValueFormat where
  name : String
  v_type : ValueType
  origin : StyleOrigin
  styleuse : StyleUse
  attr : Option AttrList
  text_attr : TextAttr
  parts : Option (List FormatPart)
  stylemaps : Option (List StyleMap)

/-- Source: ValueFormat::new / new_origin with default origin and usage. -/
def ValueFormat.new : ValueFormat :=
  { name := ""
    v_type := ValueType.Text
    origin := ⟨⟩
    styleuse := ⟨⟩
    attr := none
    text_attr := ⟨⟩
    parts := none
    stylemaps := none }

/-- Source: ValueFormat::with_name. -/
def ValueFormat.with_name (name : String) (value_type : ValueType) : ValueFormat :=
  { ValueFormat.new with name := name, v_type := value_type }

/-- Source: ValueFormat::push_part - appends to the part vector, allocating it
on first use. -/
def ValueFormat.push_part (vf : ValueFormat) (part : FormatPart) : ValueFormat :=
  { vf with parts := some ((vf.parts.getD []) ++ [part]) }

/-- Source: ValueFormat::push_parts. -/
def ValueFormat.push_parts (vf : ValueFormat) (partvec : List FormatPart) : ValueFormat :=
  match vf.parts with
  | none => { vf with parts := some partvec }
  | some ps => { vf with parts := some (ps ++ partvec) }

/- ---------------------------------------------------------------- -/
/- Calendar model (chrono::NaiveDateTime and its strftime tokens)    -/
/- ---------------------------------------------------------------- -/

/-- Modelled from chrono: a calendar timestamp without timezone, as used by
ValueFormat::format_datetime. -/
structure NaiveDateTime where
  year : Int
  month : Nat
  day : Nat
  hour : Nat
  minute : Nat
  second : Nat

/-- Proleptic Gregorian leap year. -/
def isLeapYear (y : Int) : Bool :=
  (Int.emod y 4 == 0 && Int.emod y 100 != 0) || Int.emod y 400 == 0

/-- Days in the months before month `m` (1-based), for a given leap flag. -/
def daysBeforeMonth (leap : Bool) (m : Nat) : Nat :=
  let base := match m with
    | 1 => 0 | 2 => 31 | 3 => 59 | 4 => 90 | 5 => 120 | 6 => 151
    | 7 => 181 | 8 => 212 | 9 => 243 | 10 => 273 | 11 => 304 | 12 => 334
    | _ => 0
  if leap && m > 2 then base + 1 else base

/-- Ordinal day of the year, 1-based. -/
def dayOfYear (d : NaiveDateTime) : Nat :=
  daysBeforeMonth (isLeapYear d.year) d.month + d.day

/-- Days since 1970-01-01 of the proleptic Gregorian date (Howard Hinnant's
days-from-civil algorithm). -/
def daysFromCivil (y : Int) (m d : Nat) : Int :=
  let y' := if m ≤ 2 then y - 1 else y
  let era := Int.fdiv y' 400
  let yoe := (y' - era * 400).toNat
  let mp := (m + 9) % 12
  let doy := (153 * mp + 2) / 5 + d - 1
  let doe := yoe * 365 + yoe / 4 - yoe / 100 + doy
  era * 146097 + (doe : Int) - 719468

/-- Weekday with 0 = Sunday (1970-01-01 was a Thursday). -/
def weekdaySun0 (d : NaiveDateTime) : Nat :=
  (Int.emod (daysFromCivil d.year d.month d.day + 4) 7).toNat

/-- Chrono token %W: week of the year, weeks starting on Monday, the days
before the first Monday belonging to week 0. -/
def weekOfYearW (d : NaiveDateTime) : Nat :=
  (dayOfYear d - 1 + 7 - (weekdaySun0 d + 6) % 7) / 7

/-- Chrono token %b: abbreviated month name. -/
def monthAbbrev : Nat → String
  | 1 => "Jan" | 2 => "Feb" | 3 => "Mar" | 4 => "Apr" | 5 => "May" | 6 => "Jun"
  | 7 => "Jul" | 8 => "Aug" | 9 => "Sep" | 10 => "Oct" | 11 => "Nov" | 12 => "Dec"
  | _ => ""

/-- Chrono token %B: full month name. -/
def monthFull : Nat → String
  | 1 => "January" | 2 => "February" | 3 => "March" | 4 => "April"
  | 5 => "May" | 6 => "June" | 7 => "July" | 8 => "August"
  | 9 => "September" | 10 => "October" | 11 => "November" | 12 => "December"
  | _ => ""

/-- Chrono token %a: abbreviated weekday name. -/
def weekdayAbbrev : Nat → String
  | 0 => "Sun" | 1 => "Mon" | 2 => "Tue" | 3 => "Wed" | 4 => "Thu"
  | 5 => "Fri" | 6 => "Sat"
  | _ => ""

/-- Chrono token %A: full weekday name. -/
def weekdayFull : Nat → String
  | 0 => "Sunday" | 1 => "Monday" | 2 => "Tuesday" | 3 => "Wednesday"
  | 4 => "Thursday" | 5 => "Friday" | 6 => "Saturday"
  | _ => ""

/-- Hour on the 12-hour clock (chrono %I / %-I): 0 and 12 map to 12. -/
def hour12 (h : Nat) : Nat :=
  let r := h % 12
  if r = 0 then 12 else r

/-- Chrono token %Y: the full year, zero-padded to four digits, with a minus
sign for negative years. -/
def fmtYearLong (y : Int) : String :=
  if y < 0 then "-" ++ pad4 y.natAbs else pad4 y.natAbs

/-- Chrono token %y: the year modulo 100, zero-padded to two digits. -/
def fmtYearShort (y : Int) : String :=
  pad2 (Int.emod y 100).toNat

/-- Chrono token %p: the AM/PM marker. -/
def fmtAmPm (h : Nat) : String :=
  if h < 12 then "AM" else "PM"

/- ---------------------------------------------------------------- -/
/- Duration model (time::Duration)                                   -/
/- ---------------------------------------------------------------- -/

/-- Modelled from the time crate: a signed elapsed time.  Only the whole-unit
accessors below are observed by the renderer, so the duration is carried as
whole seconds (the sub-second component cannot change their values beyond the
truncation toward zero already expressed here). -/
structure Duration where
  secs : Int

/-- Source model: Duration::num_hours - total whole hours, truncated toward
zero as in Rust integer division. -/
def Duration.num_hours (d : Duration) : Int := Int.tdiv d.secs 3600

/-- Source model: Duration::num_minutes - total whole minutes. -/
def Duration.num_minutes (d : Duration) : Int := Int.tdiv d.secs 60

/-- Source model: Duration::num_seconds - total whole seconds. -/
def Duration.num_seconds (d : Duration) : Int := d.secs

/- ---------------------------------------------------------------- -/
/- Float model (f64 as an exact rational)                            -/
/- ---------------------------------------------------------------- -/

/-- Round to the nearest integer, ties to even (the rounding used by Rust's
fixed-precision float formatting). -/
def roundHalfEven (q : Rat) : Int :=
  let f := Rat.floor q
  let r := q - (f : Rat)
  if r < (1 : Rat) / 2 then f
  else if (1 : Rat) / 2 < r then f + 1
  else if Int.emod f 2 = 0 then f else f + 1

/-- Modelled from Rust `format!({:.dec$}, f)` over an exact rational in place
of the binary f64: fixed-point with exactly `dec` fractional digits, rounding
half to even.  The bit-level double-to-decimal behaviour of f64 is floating
point and outside this embedding; no claim in scope observes these digits. -/
def fixedString (dec : Nat) (q : Rat) : String :=
  let scaled := roundHalfEven (q * (10 : Rat) ^ dec)
  let neg := scaled < 0
  let a := scaled.natAbs
  let ip := a / 10 ^ dec
  let fp := a % 10 ^ dec
  let s := (if neg then "-" else "") ++ toString ip
  if dec = 0 then s else s ++ "." ++ padZeros (toString fp) dec

/-- Number of decimal digits of a positive natural number. -/
def decimalDigits (n : Nat) : Nat := (toString n).length

/-- Ten to an integer power, as a rational. -/
def pow10z (e : Int) : Rat :=
  if 0 ≤ e then ((10 : Rat) ^ e.toNat) else 1 / ((10 : Rat) ^ (-e).toNat)

/-- Largest integer e with 10^e ≤ a, for positive a. -/
def expOf (a : Rat) : Int :=
  let e0 : Int := (decimalDigits a.num.natAbs : Int) - (decimalDigits a.den : Int)
  if pow10z (e0 + 1) ≤ a then e0 + 1
  else if pow10z e0 ≤ a then e0
  else e0 - 1

/-- Drop trailing zeros of a fixed-point digit string, then a trailing dot. -/
def stripTrailingZeros (s : String) : String :=
  let cs := (s.toList.reverse.dropWhile (fun c => c == '0'))
  let cs := match cs with
    | '.' :: rest => rest
    | l => l
  String.mk cs.reverse

/-- Modelled from Rust `format!({:e}, f)` over an exact rational: a mantissa in
[1,10) with up to sixteen fractional digits (trailing zeros stripped) followed
by `e` and the decimal exponent.  The shortest-digits algorithm of binary f64
is floating point and outside this embedding; no claim in scope observes this
string. -/
def fmtE (q : Rat) : String :=
  if q = 0 then "0e0"
  else
    let sgn := if q < 0 then "-" else ""
    let a := if q < 0 then -q else q
    let e := expOf a
    let m := a / pow10z e
    sgn ++ stripTrailingZeros (fixedString 16 m) ++ "e" ++ toString e

/- ---------------------------------------------------------------- -/
/- Per-part rendering (FormatPart::format_*)                         -/
/- ---------------------------------------------------------------- -/

/-- Source: the Boolean-category contribution of one part
(FormatPart::format_boolean, src/format.rs): a Boolean part emits the literal
true/false tokens, a Text part its content, everything else nothing. -/
def FormatPart.contrib_boolean (p : FormatPart) (b : Bool) : String :=
  match p.part_type with
  | FormatPartType.Boolean => if b then "true" else "false"
  | FormatPartType.Text =>
    match p.content with
    | some content => content
    | none => ""
  | _ => ""

/-- Source: FormatPart::format_boolean - appends the contribution to buf. -/
def FormatPart.format_boolean (p : FormatPart) (buf : String) (b : Bool) : String :=
  buf ++ p.contrib_boolean b

/-- Source: the Float-category contribution of one part
(FormatPart::format_float, src/format.rs).  A Number part parses
`number:decimal-places` (default "0") as usize and, only when the parse
succeeds, emits the fixed-point rendering; a failed parse contributes nothing.
Scientific emits exponential notation, CurrencySymbol and Text their content,
everything else nothing. -/
def FormatPart.contrib_float (p : FormatPart) (f : Rat) : String :=
  match p.part_type with
  | FormatPartType.Number =>
    match parseUsize ( p.attr_def "number:decimal-places" "0") with
    | some dec => fixedString dec f
    | none => ""
  | FormatPartType.Scientific => fmtE f
  | FormatPartType.CurrencySymbol =>
    match p.content with
    | some content => content
    | none => ""
  | FormatPartType.Text =>
    match p.content with
    | some content => content
    | none => ""
  | _ => ""

/-- Source: FormatPart::format_float - appends the contribution to buf. -/
def FormatPart.format_float (p : FormatPart) (buf : String) (f : Rat) : String :=
  buf ++ p.contrib_float f

/-- Source: the String-category contribution of one part
(FormatPart::format_str, src/format.rs): TextContent emits the whole input
string, Text its content, everything else nothing. -/
def FormatPart.contrib_str (p : FormatPart) (s : String) : String :=
  match p.part_type with
  | FormatPartType.TextContent => s
  | FormatPartType.Text =>
    match p.content with
    | some content => content
    | none => ""
  | _ => ""

/-- Source: FormatPart::format_str - appends the contribution to buf. -/
def FormatPart.format_str (p : FormatPart) (buf : String) (s : String) : String :=
  buf ++ p.contrib_str s

/-- Source: the DateTime-category contribution of one part
(FormatPart::format_datetime, src/format.rs), with the 12-hour flag `h12`
computed by the caller.  Each branch reads `number:style` (and for Month also
`number:textual`) and emits the corresponding chrono strftime token. -/
def FormatPart.contrib_datetime (p : FormatPart) (d : NaiveDateTime) (h12 : Bool) : String :=
  match p.part_type with
  | FormatPartType.Day =>
    if p.attr_def "number:style" "" == "long" then pad2 d.day else toString d.day
  | FormatPartType.Month =>
    if p.attr_def "number:textual" "" == "true" then
      if p.attr_def "number:style" "" == "long" then monthAbbrev d.month
      else monthFull d.month
    else
      if p.attr_def "number:style" "" == "long" then pad2 d.month
      else toString d.month
  | FormatPartType.Year =>
    if p.attr_def "number:style" "" == "long" then fmtYearLong d.year
    else fmtYearShort d.year
  | FormatPartType.DayOfWeek =>
    if p.attr_def "number:style" "" == "long" then weekdayFull (weekdaySun0 d)
    else weekdayAbbrev (weekdaySun0 d)
  | FormatPartType.WeekOfYear =>
    if p.attr_def "number:style" "" == "long" then pad2 (weekOfYearW d)
    else toString (weekOfYearW d)
  | FormatPartType.Hours =>
    if !h12 then
      if p.attr_def "number:style" "" == "long" then pad2 d.hour
      else toString d.hour
    else
      if p.attr_def "number:style" "" == "long" then pad2 (hour12 d.hour)
      else toString (hour12 d.hour)
  | FormatPartType.Minutes =>
    if p.attr_def "number:style" "" == "long" then pad2 d.minute
    else toString d.minute
  | FormatPartType.Seconds =>
    if p.attr_def "number:style" "" == "long" then pad2 d.second
    else toString d.second
  | FormatPartType.AmPm => fmtAmPm d.hour
  | FormatPartType.Text =>
    match p.content with
    | some content => content
    | none => ""
  | _ => ""

/-- Source: FormatPart::format_datetime - appends the contribution to buf. -/
def FormatPart.format_datetime (p : FormatPart) (buf : String) (d : NaiveDateTime)
    (h12 : Bool) : String :=
  buf ++ p.contrib_datetime d h12

/-- Source: the Duration-category contribution of one part
(FormatPart::format_time_duration, src/format.rs): total whole hours,
minutes modulo 60, seconds modulo 60 (Rust's truncated remainder), Text
content, everything else nothing.  No attribute is read here. -/
def FormatPart.contrib_duration (p : FormatPart) (d : Duration) : String :=
  match p.part_type with
  | FormatPartType.Hours => toString d.num_hours
  | FormatPartType.Minutes => toString (Int.tmod d.num_minutes 60)
  | FormatPartType.Seconds => toString (Int.tmod d.num_seconds 60)
  | FormatPartType.Text =>
    match p.content with
    | some content => content
    | none => ""
  | _ => ""

/-- Source: FormatPart::format_time_duration - appends the contribution to
buf. -/
def FormatPart.format_time_duration (p : FormatPart) (buf : String) (d : Duration) : String :=
  buf ++ p.contrib_duration d

/- ---------------------------------------------------------------- -/
/- Render entry points (ValueFormat::format_*)                       -/
/- ---------------------------------------------------------------- -/

/-- Source: ValueFormat::format_boolean - folds the part sequence over an
initially empty buffer; absent parts produce the empty string. -/
def ValueFormat.format_boolean (vf : ValueFormat) (b : Bool) : String :=
  match vf.parts with
  | some parts => parts.foldl (fun buf p => p.format_boolean buf b) ""
  | none => ""

/-- Source: ValueFormat::format_float. -/
def ValueFormat.format_float (vf : ValueFormat) (f : Rat) : String :=
  match vf.parts with
  | some parts => parts.foldl (fun buf p => p.format_float buf f) ""
  | none => ""

/-- Source: ValueFormat::format_str. -/
def ValueFormat.format_str (vf : ValueFormat) (s : String) : String :=
  match vf.parts with
  | some parts => parts.foldl (fun buf p => p.format_str buf s) ""
  | none => ""

/-- Source: ValueFormat::format_datetime - one pre-pass over all parts
computes the 12-hour flag, which is then passed to every part. -/
def ValueFormat.format_datetime (vf : ValueFormat) (d : NaiveDateTime) : String :=
  match vf.parts with
  | some parts =>
    let h12 := parts.any (fun v => v.part_type == FormatPartType.AmPm)
    parts.foldl (fun buf p => p.format_datetime buf d h12) ""
  | none => ""

/-- Source: ValueFormat::format_time_duration. -/
def ValueFormat.format_time_duration (vf : ValueFormat) (d : Duration) : String :=
  match vf.parts with
  | some parts => parts.foldl (fun buf p => p.format_time_duration buf d) ""
  | none => ""

/- ---------------------------------------------------------------- -/
/- Detach / Detached (src/ds/mod.rs)                                 -/
/- ---------------------------------------------------------------- -/

/-- Source: struct Detach, src/ds/mod.rs - a slot that is either present or
absent. -/
structure Detach (T : Type) where
  val : Option T

/-- Source: struct Detached, src/ds/mod.rs - a moved-out value together with
its caller-supplied key. -/
structure Detached (K T : Type) where
  key : K
  val : T

/-- Source: Detach::new. -/
def Detach.new {T : Type} (val : T) : Detach T := ⟨some val⟩

/-- Source: Detach::is_detached. -/
def Detach.is_detached {T : Type} (d : Detach T) : Bool := d.val.isNone

/-- Source: Detach::detach - moves the value out, panicking ("already
detached") when the slot is absent.  The panic is modelled as `none`; a
successful call returns the detached value and the emptied slot. -/
def Detach.detach {T K : Type} (d : Detach T) (key : K) : Option (Detached K T × Detach T) :=
  match d.val with
  | some v => some (⟨key, v⟩, ⟨none⟩)
  | none => none

/-- Source: Detach::attach - reattaches the data, replacing the slot's
value. -/
def Detach.attach {T K : Type} (d : Detach T) (detached : Detached K T) : Detach T :=
  ⟨some detached.val⟩

/-- Source: Detach::as_ref - panics ("already detached") when absent; the
panic is modelled as `none`. -/
def Detach.as_ref {T : Type} (d : Detach T) : Option T := d.val

/-- Source: Detach::as_mut - panics ("already detached") when absent; the
panic is modelled as `none`. -/
def Detach.as_mut {T : Type} (d : Detach T) : Option T := d.val

/-- Source: Detach::take - dissolves the container, panicking ("already
detached") when absent; the panic is modelled as `none`. -/
def Detach.take {T : Type} (d : Detach T) : Option T := d.val

/- ---------------------------------------------------------------- -/
/- Spec-side definitions for refinement comparisons                  -/
/- ---------------------------------------------------------------- -/

/-- Follows the spec's words for the float error claim (refinement comparison
against the code): rendering fails with the NaN error when a Number part's
"number:decimal-places" attribute is present but does not parse as a
non-negative integer (the default "0" always parses), and otherwise each part
contributes as documented. -/
def format_float_claimed (vf : ValueFormat) (f : Rat) : Except ValueFormatError String :=
  match vf.parts with
  | none => Except.ok ""
  | some parts =>
    parts.foldlM (fun buf p =>
      match p.part_type with
      | FormatPartType.Number =>
        match parseUsize ( p.attr_def "number:decimal-places" "0") with
        | some dec => Except.ok (buf ++ fixedString dec f)
        | none => Except.error ValueFormatError.NaN
      | _ => Except.ok (buf ++ p.contrib_float f)) ""

/-- Claim-side Duration rendering, written from the claim's words: total whole
hours for Hours, total minutes modulo 60 for Minutes, total seconds modulo 60
for Seconds (mod being the source language's truncated remainder), the literal
content for Text, the empty string for every other kind. -/
def durationClaimRender (p : FormatPart) (d : Duration) : String :=
  match p.part_type with
  | FormatPartType.Hours => toString d.num_hours
  | FormatPartType.Minutes => toString (Int.tmod d.num_minutes 60)
  | FormatPartType.Seconds => toString (Int.tmod d.num_seconds 60)
  | FormatPartType.Text => p.content.getD ""
  | _ => ""

/-- Claim-side String rendering, written from the claim's words: each
TextContent part reinserts the entire input string, each Text part its
literal content, every other kind nothing. -/
def strClaimRender (p : FormatPart) (s : String) : String :=
  match p.part_type with
  | FormatPartType.TextContent => s
  | FormatPartType.Text => p.content.getD ""
  | _ => ""

/- ---------------------------------------------------------------- -/
/- Render calls with their post-call state                           -/
/- ---------------------------------------------------------------- -/

/-- Source: ValueFormat::format_boolean takes the format by shared reference
(&self) and none of the involved types has interior mutability, so a call
returns the rendered string and leaves the format exactly as it was; the
post-call state of the format is made explicit here. -/
def ValueFormat.render_boolean_call (vf : ValueFormat) (b : Bool) : String × ValueFormat :=
  (vf.format_boolean b, vf)

/-- Source: ValueFormat::format_float as a call with explicit post-call
state (see render_boolean_call). -/
def ValueFormat.render_float_call (vf : ValueFormat) (f : Rat) : String × ValueFormat :=
  (vf.format_float f, vf)

/-- Source: ValueFormat::format_str as a call with explicit post-call state
(see render_boolean_call). -/
def ValueFormat.render_str_call (vf : ValueFormat) (s : String) : String × ValueFormat :=
  (vf.format_str s, vf)

/-- Source: ValueFormat::format_datetime as a call with explicit post-call
state (see render_boolean_call). -/
def ValueFormat.render_datetime_call (vf : ValueFormat) (d : NaiveDateTime) : String × ValueFormat :=
  (vf.format_datetime d, vf)

/-- Source: ValueFormat::format_time_duration as a call with explicit
post-call state (see render_boolean_call). -/
def ValueFormat.render_duration_call (vf : ValueFormat) (d : Duration) : String × ValueFormat :=
  (vf.format_time_duration d, vf)

/- ---------------------------------------------------------------- -/
/- Concrete fixtures                                                 -/
/- ---------------------------------------------------------------- -/

/-- A format with a single Number part whose decimal-places attribute does not
parse as a non-negative integer. -/
def vfNumberBad : ValueFormat :=
  ValueFormat.new.push_part
    (FormatPart.new_vec FormatPartType.Number [("number:decimal-places", "abc")])

/-- The format [TextContent, Text "-", TextContent]. -/
def vfStrDup : ValueFormat :=
  ValueFormat.new.push_parts
    [FormatPart.new FormatPartType.TextContent,
     FormatPart.new_content FormatPartType.Text "-",
     FormatPart.new FormatPartType.TextContent]

/-- A format with two Hours parts (one short, one long) and one AmPm part. -/
def vfTwoHours : ValueFormat :=
  ValueFormat.new.push_parts
    [FormatPart.new FormatPartType.Hours,
     FormatPart.new FormatPartType.AmPm,
     FormatPart.new_vec FormatPartType.Hours [("number:style", "long")]]

/-- A duration format [Hours, Text ":", Minutes, Text ":", Seconds]. -/
def vfDuration : ValueFormat :=
  ValueFormat.new.push_parts
    [FormatPart.new FormatPartType.Hours,
     FormatPart.new_content FormatPartType.Text ":",
     FormatPart.new FormatPartType.Minutes,
     FormatPart.new_content FormatPartType.Text ":",
     FormatPart.new FormatPartType.Seconds]

/-- January 4th 2023, 13:07:09. -/
def dtJan : NaiveDateTime := ⟨2023, 1, 4, 13, 7, 9⟩

/-- A duration of 26 hours, 3 minutes, 4 seconds. -/
def durSample : Duration := ⟨93784⟩

/- ---------------------------------------------------------------- -/
/- Helper lemmas                                                     -/
/- ---------------------------------------------------------------- -/

theorem str_append_empty (s : String) : s ++ "" = s := by
  cases s with
  | mk data =>
    show String.mk (data ++ []) = String.mk data
    rw [List.append_nil]

theorem str_append_assoc (a b c : String) : a ++ b ++ c = a ++ (b ++ c) := by
  cases a with
  | mk x => cases b with
    | mk y => cases c with
      | mk z =>
        show String.mk ((x ++ y) ++ z) = String.mk (x ++ (y ++ z))
        rw [List.append_assoc]

/-- Folding buffer-append over a list equals the initial buffer followed by
the concatenated per-element contributions. -/
theorem foldl_contrib {α : Type} (f : α → String) (l : List α) (init : String) :
    l.foldl (fun buf p => buf ++ f p) init = init ++ joinParts (l.map f) := by
  induction l generalizing init with
  | nil => simp [joinParts, str_append_empty]
  | cons a t ih => simp [joinParts, ih, str_append_assoc]

/- ---------------------------------------------------------------- -/
/- Claim theorems                                                    -/
/- ---------------------------------------------------------------- -/

/-- C1 counterexample: with a single Number part whose decimal-places
attribute is "abc", the code's float rendering returns the string "" (the
Number part silently contributes nothing), while the behaviour the claim
describes raises the NaN error; the code's float rendering has no failure
mode at all. -/
theorem format_float_unparsable_counterexample :
    vfNumberBad.format_float (314 / 100 : Rat) = "" ∧
    format_float_claimed vfNumberBad (314 / 100 : Rat) =
      Except.error ValueFormatError.NaN := by
  exact ⟨rfl, rfl⟩

/-- C1 amended: a Number part whose "number:decimal-places" attribute does
not parse as a non-negative 64-bit integer contributes nothing to the float
rendering; the render returns a string (never an error) for every input. -/
theorem format_float_unparsable_contributes_nothing (p : FormatPart)
    (hp : p.part_type = FormatPartType.Number)
    (hu : parseUsize ( p.attr_def "number:decimal-places" "0") = none) :
    ∀ (buf : String) (f : Rat), p.format_float buf f = buf := by
  intro buf f
  unfold FormatPart.format_float FormatPart.contrib_float
  rw [hp, hu, str_append_empty]

/-- C1 witness for the amended claim at a concrete part and inputs. -/
theorem format_float_unparsable_contributes_nothing_witness :
    (FormatPart.new_vec FormatPartType.Number
      [("number:decimal-places", "abc")]).format_float "x" (2 : Rat) = "x" :=
  format_float_unparsable_contributes_nothing
    (FormatPart.new_vec FormatPartType.Number [("number:decimal-places", "abc")])
    rfl rfl "x" (2 : Rat)

/-- C2 exhibit: after set_attr then clear_attr on a fresh store no attribute
remains (lookup fails and iteration is empty) exactly as on a never-written
store, yet is_empty reports false because the inner map stays allocated -
contradicting the claim and the method's own documentation ("Are there any
attributes?"). -/
theorem attrmap2_cleared_store_not_empty :
    ((AttrMap2.new.set_attr "a" "b").clear_attr "a").2.is_empty = false ∧
    ((AttrMap2.new.set_attr "a" "b").clear_attr "a").2.attr "a" = none ∧
    ((AttrMap2.new.set_attr "a" "b").clear_attr "a").2.iter = [] ∧
    AttrMap2.new.is_empty = true := by
  exact ⟨rfl, rfl, rfl, rfl⟩

/-- C3: DateTime rendering computes one flag for the whole call - whether any
part in the sequence has kind AmPm - and threads it into every part's
rendering; a part of kind Hours renders the 12-hour clock exactly when the
flag is true and the 24-hour clock when it is false. -/
theorem format_datetime_h12_flag (vf : ValueFormat) (ps : List FormatPart)
    (h : vf.parts = some ps) (d : NaiveDateTime) :
    vf.format_datetime d =
      joinParts (ps.map (fun p =>
        p.contrib_datetime d (ps.any (fun q => q.part_type == FormatPartType.AmPm)))) ∧
    (∀ (p : FormatPart), p.part_type = FormatPartType.Hours →
      p.contrib_datetime d true =
        (if p.attr_def "number:style" "" == "long" then pad2 (hour12 d.hour)
         else toString (hour12 d.hour)) ∧
      p.contrib_datetime d false =
        (if p.attr_def "number:style" "" == "long" then pad2 d.hour
         else toString d.hour)) := by
  constructor
  · obtain ⟨n, vt, og, su, a, ta, pts, sm⟩ := vf
    replace h : pts = some ps := h
    subst h
    rw [show (ValueFormat.mk n vt og su a ta (some ps) sm).format_datetime d =
          ps.foldl (fun buf p => buf ++ p.contrib_datetime d
            (ps.any (fun q => q.part_type == FormatPartType.AmPm))) "" from rfl]
    rw [foldl_contrib]
    rfl
  · intro p hp
    constructor
    · unfold FormatPart.contrib_datetime
      rw [hp]
      rfl
    · unfold FormatPart.contrib_datetime
      rw [hp]
      rfl

/-- C3 witness: a format with two Hours parts (short and long) and one AmPm
part, rendered at 13:07:09 - both Hours parts come out on the 12-hour clock. -/
theorem format_datetime_h12_flag_witness :
    vfTwoHours.format_datetime dtJan = "1PM01" := by
  rw [(format_datetime_h12_flag vfTwoHours _ rfl dtJan).1]
  rfl

/-- C4: a Month part with number:textual = "true" renders the abbreviated
month name when number:style is "long" and the full month name otherwise (the
inverse of the numeric convention); without number:textual = "true", "long"
gives the zero-padded month number and otherwise the unpadded one. -/
theorem format_datetime_month_mapping (p : FormatPart)
    (hp : p.part_type = FormatPartType.Month) (d : NaiveDateTime) (h12 : Bool)
    (buf : String) :
    p.format_datetime buf d h12 =
      buf ++ (if p.attr_def "number:textual" "" == "true" then
                (if p.attr_def "number:style" "" == "long" then monthAbbrev d.month
                 else monthFull d.month)
              else
                (if p.attr_def "number:style" "" == "long" then pad2 d.month
                 else toString d.month)) := by
  unfold FormatPart.format_datetime FormatPart.contrib_datetime
  rw [hp]

/-- C4 witness: textual long January renders "Jan", textual short renders
"January", numeric long renders "01", numeric short renders "1". -/
theorem format_datetime_month_mapping_witness :
    (FormatPart.new_vec FormatPartType.Month
      [("number:textual", "true"), ("number:style", "long")]).format_datetime
        "" dtJan true = "Jan" ∧
    (FormatPart.new_vec FormatPartType.Month
      [("number:textual", "true")]).format_datetime "" dtJan true = "January" ∧
    (FormatPart.new_vec FormatPartType.Month
      [("number:style", "long")]).format_datetime "" dtJan true = "01" ∧
    (FormatPart.new FormatPartType.Month).format_datetime "" dtJan true = "1" := by
  refine ⟨?_, ?_, ?_, ?_⟩
  · rw [format_datetime_month_mapping
      (FormatPart.new_vec FormatPartType.Month
        [("number:textual", "true"), ("number:style", "long")]) rfl]
    rfl
  · rw [format_datetime_month_mapping
      (FormatPart.new_vec FormatPartType.Month [("number:textual", "true")]) rfl]
    rfl
  · rw [format_datetime_month_mapping
      (FormatPart.new_vec FormatPartType.Month [("number:style", "long")]) rfl]
    rfl
  · rw [format_datetime_month_mapping (FormatPart.new FormatPartType.Month) rfl]
    rfl

/-- C5: Duration rendering emits, in part order, exactly the claim's per-part
strings - total whole hours for Hours, total minutes modulo 60 for Minutes,
total seconds modulo 60 for Seconds, the literal content for Text, the empty
string for every other kind - and a part's Duration contribution never
depends on its attributes (no padding options apply). -/
theorem format_time_duration_spec (vf : ValueFormat) (ps : List FormatPart)
    (h : vf.parts = some ps) (d : Duration) :
    vf.format_time_duration d = joinParts (ps.map (fun p => durationClaimRender p d)) ∧
    (∀ (p : FormatPart) (a : Option AttrList),
      ({ p with attr := a } : FormatPart).contrib_duration d = p.contrib_duration d) := by
  have e2 : ∀ p : FormatPart, p.contrib_duration d = durationClaimRender p d := by
    intro p
    unfold FormatPart.contrib_duration durationClaimRender
    cases hq : p.part_type <;> try rfl
    cases hc : p.content <;> rfl
  constructor
  · obtain ⟨n, vt, og, su, a, ta, pts, sm⟩ := vf
    replace h : pts = some ps := h
    subst h
    rw [show (ValueFormat.mk n vt og su a ta (some ps) sm).format_time_duration d =
          ps.foldl (fun buf p => buf ++ p.contrib_duration d) "" from rfl]
    rw [foldl_contrib]
    show joinParts (ps.map fun p => p.contrib_duration d) = _
    simp only [e2]
  · intro p a
    rfl

/-- C5 witness: the format [Hours, ":", Minutes, ":", Seconds] renders a
duration of 26h 3m 4s as "26:3:4" (hours exceed 24, minutes and seconds are
unpadded remainders), and attaching a number:style attribute to an Hours part
changes nothing. -/
theorem format_time_duration_spec_witness :
    vfDuration.format_time_duration durSample = "26:3:4" ∧
    ({ FormatPart.new FormatPartType.Hours with
        attr := some [("number:style", "long")] } : FormatPart).contrib_duration durSample =
      (FormatPart.new FormatPartType.Hours).contrib_duration durSample := by
  constructor
  · rw [(format_time_duration_spec vfDuration _ rfl durSample).1]
    rfl
  · exact (format_time_duration_spec vfDuration _ rfl durSample).2
      (FormatPart.new FormatPartType.Hours) (some [("number:style", "long")])

/-- C6: a format whose part sequence is absent or empty renders the empty
string from every entry point, for every input value. -/
theorem empty_parts_render_empty (vf : ValueFormat)
    (h : vf.parts = none ∨ vf.parts = some []) :
    (∀ b, vf.format_boolean b = "") ∧ (∀ f, vf.format_float f = "") ∧
    (∀ s, vf.format_str s = "") ∧ (∀ d, vf.format_datetime d = "") ∧
    (∀ d, vf.format_time_duration d = "") := by
  obtain ⟨n, vt, og, su, a, ta, pts, sm⟩ := vf
  rcases h with h | h <;>
    (replace h : pts = _ := h
     subst h
     exact ⟨fun b => rfl, fun f => rfl, fun s => rfl, fun d => rfl, fun d => rfl⟩)

/-- C6 witness: the fresh format (absent parts) and a format with an empty
part vector both render the empty string. -/
theorem empty_parts_render_empty_witness :
    ValueFormat.new.format_boolean true = "" ∧
    ValueFormat.new.format_datetime dtJan = "" ∧
    (ValueFormat.new.push_parts []).format_str "ab" = "" := by
  exact ⟨(empty_parts_render_empty ValueFormat.new (Or.inl rfl)).1 true,
    (empty_parts_render_empty ValueFormat.new (Or.inl rfl)).2.2.2.1 dtJan,
    (empty_parts_render_empty (ValueFormat.new.push_parts []) (Or.inr rfl)).2.2.1 "ab"⟩

/-- C7: String rendering emits, in part order, the entire input string for
each TextContent part, the literal content for each Text part, and nothing
for every other kind. -/
theorem format_str_spec (vf : ValueFormat) (ps : List FormatPart)
    (h : vf.parts = some ps) (s : String) :
    vf.format_str s = joinParts (ps.map (fun p => strClaimRender p s)) := by
  have e2 : ∀ p : FormatPart, p.contrib_str s = strClaimRender p s := by
    intro p
    unfold FormatPart.contrib_str strClaimRender
    cases hq : p.part_type <;> try rfl
    cases hc : p.content <;> rfl
  obtain ⟨n, vt, og, su, a, ta, pts, sm⟩ := vf
  replace h : pts = some ps := h
  subst h
  rw [show (ValueFormat.mk n vt og su a ta (some ps) sm).format_str s =
        ps.foldl (fun buf p => buf ++ p.contrib_str s) "" from rfl]
  rw [foldl_contrib]
  show joinParts (ps.map fun p => p.contrib_str s) = _
  simp only [e2]

/-- C7 witness: the format [TextContent, Text "-", TextContent] renders the
input "ab" as "ab-ab" - each TextContent occurrence reinserts the full
string. -/
theorem format_str_spec_witness :
    vfStrDup.format_str "ab" = "ab-ab" := by
  rw [format_str_spec vfStrDup _ rfl "ab"]
  rfl

/-- C8: every render entry point is deterministic and side-effect-free - the
call leaves the format (parts, attributes and metadata) exactly as it was,
and a second call of the same entry point on the post-call format with the
same value returns the identical string. -/
theorem render_calls_pure (vf : ValueFormat) :
    (∀ b, (vf.render_boolean_call b).2 = vf ∧
      ((vf.render_boolean_call b).2.render_boolean_call b).1 =
        (vf.render_boolean_call b).1) ∧
    (∀ f, (vf.render_float_call f).2 = vf ∧
      ((vf.render_float_call f).2.render_float_call f).1 =
        (vf.render_float_call f).1) ∧
    (∀ s, (vf.render_str_call s).2 = vf ∧
      ((vf.render_str_call s).2.render_str_call s).1 =
        (vf.render_str_call s).1) ∧
    (∀ d, (vf.render_datetime_call d).2 = vf ∧
      ((vf.render_datetime_call d).2.render_datetime_call d).1 =
        (vf.render_datetime_call d).1) ∧
    (∀ d, (vf.render_duration_call d).2 = vf ∧
      ((vf.render_duration_call d).2.render_duration_call d).1 =
        (vf.render_duration_call d).1) := by
  exact ⟨fun b => ⟨rfl, rfl⟩, fun f => ⟨rfl, rfl⟩, fun s => ⟨rfl, rfl⟩,
    fun d => ⟨rfl, rfl⟩, fun d => ⟨rfl, rfl⟩⟩

/-- C9: accessing the ownership-transfer slot while the value is absent fails
fast - detach, as_ref, as_mut and take all hit the modelled panic (none)
rather than returning a recoverable value - and attach always restores the
slot to the present state. -/
theorem detach_access_panics_when_absent {T : Type} (d : Detach T)
    (h : d.is_detached = true) :
    (∀ (K : Type) (k : K), d.detach k = none) ∧
    d.as_ref = none ∧ d.as_mut = none ∧ d.take = none ∧
    (∀ (K : Type) (det : Detached K T), (d.attach det).is_detached = false) := by
  have hv : d.val = none := by
    simpa [Detach.is_detached, Option.isNone_iff_eq_none] using h
  refine ⟨fun K k => ?_, ?_, ?_, ?_, fun K det => ?_⟩ <;>
    simp [Detach.detach, Detach.as_ref, Detach.as_mut, Detach.take,
      Detach.attach, Detach.is_detached, hv]

/-- C9 witness: a detached slot of naturals panics on every access and is
present again after attach. -/
theorem detach_access_panics_when_absent_witness :
    (Detach.mk (none : Option Nat)).is_detached = true ∧
    (Detach.mk (none : Option Nat)).detach (0 : Nat) = none ∧
    (Detach.mk (none : Option Nat)).as_ref = none ∧
    (Detach.mk (none : Option Nat)).take = none ∧
    ((Detach.mk (none : Option Nat)).attach
      (⟨0, 5⟩ : Detached Nat Nat)).is_detached = false := by
  exact ⟨rfl,
    (detach_access_panics_when_absent (Detach.mk (none : Option Nat)) rfl).1 Nat 0,
    (detach_access_panics_when_absent (Detach.mk (none : Option Nat)) rfl).2.1,
    (detach_access_panics_when_absent (Detach.mk (none : Option Nat)) rfl).2.2.2.1,
    (detach_access_panics_when_absent (Detach.mk (none : Option Nat)) rfl).2.2.2.2
      Nat ⟨0, 5⟩⟩

/-- C10: in every render category a Text part contributes exactly its content
when present and the empty string when absent (never a failure), and a
CurrencySymbol part does the same in the float category. -/
theorem text_part_contribution (p : FormatPart) :
    (p.part_type = FormatPartType.Text →
      ∀ buf, (∀ b, p.format_boolean buf b = buf ++ p.content.getD "") ∧
        (∀ f, p.format_float buf f = buf ++ p.content.getD "") ∧
        (∀ s, p.format_str buf s = buf ++ p.content.getD "") ∧
        (∀ d h12, p.format_datetime buf d h12 = buf ++ p.content.getD "") ∧
        (∀ d, p.format_time_duration buf d = buf ++ p.content.getD "")) ∧
    (p.part_type = FormatPartType.CurrencySymbol →
      ∀ buf f, p.format_float buf f = buf ++ p.content.getD "") := by
  constructor
  · intro hp buf
    refine ⟨fun b => ?_, fun f => ?_, fun s => ?_, fun d h12 => ?_, fun d => ?_⟩
    · unfold FormatPart.format_boolean FormatPart.contrib_boolean
      rw [hp]
      cases hc : p.content <;> rfl
    · unfold FormatPart.format_float FormatPart.contrib_float
      rw [hp]
      cases hc : p.content <;> rfl
    · unfold FormatPart.format_str FormatPart.contrib_str
      rw [hp]
      cases hc : p.content <;> rfl
    · unfold FormatPart.format_datetime FormatPart.contrib_datetime
      rw [hp]
      cases hc : p.content <;> rfl
    · unfold FormatPart.format_time_duration FormatPart.contrib_duration
      rw [hp]
      cases hc : p.content <;> rfl
  · intro hp buf f
    unfold FormatPart.format_float FormatPart.contrib_float
    rw [hp]
    cases hc : p.content <;> rfl

/-- C10 witness: a content-less Text part contributes nothing to a boolean
render and to a duration render, and a CurrencySymbol part with content
"EUR" contributes exactly "EUR" to a float render. -/
theorem text_part_contribution_witness :
    (FormatPart.new FormatPartType.Text).format_boolean "x" true = "x" ∧
    (FormatPart.new FormatPartType.Text).format_time_duration "x" durSample = "x" ∧
    (FormatPart.new_content FormatPartType.CurrencySymbol "EUR").format_float
      "" (2 : Rat) = "EUR" := by
  exact ⟨((text_part_contribution (FormatPart.new FormatPartType.Text)).1 rfl "x").1 true,
    ((text_part_contribution (FormatPart.new FormatPartType.Text)).1 rfl "x").2.2.2.2 durSample,
    (text_part_contribution
      (FormatPart.new_content FormatPartType.CurrencySymbol "EUR")).2 rfl "" (2 : Rat)⟩
